import Mathlib

/-!
Shallow embedding of the typed prepared-statement execution layer in
`src/trpc/client/mysql/mysql_executor.h` (namespace `trpc::mysql`).

The executor drives the MySQL C API: it prepares a statement, binds input
parameters, binds one output buffer per result column, executes, and runs a
fetch loop that turns each fetched row into a typed tuple plus a parallel
NULL-flag vector.  We embed the control flow of `QueryAll`, `Execute` and
`FetchResults` exactly as written in the header.  The protocol layer
(`mysql_stmt_fetch`, `mysql_stmt_bind_param`, `mysql_affected_rows`, the
prepared statement) is external to the core; each call observes it through a
`StmtBehavior` / `ExecBehavior` record describing what the protocol reports
during that call.

Parts of the repository that the header uses but that are not among the
sources here (`mysql_binder.h` with `BindOutputImpl` and `SetResultTuple`,
`mysql_executor.cc` with `ExecuteStatement`) are modelled from the spec and
are marked `Modelled from the spec:` in their doc comments.
-/

set_option autoImplicit false

namespace TrpcMysql

/-- A decoded column value.  The Type Binder maps each supported C++ type to a
wire type; for the executor control flow only the values themselves matter, so
we use a small closed value universe (signed integer, unsigned integer,
string/blob bytes). -/
inductive MysqlValue
  | intV (v : Int)
  | uintV (v : Nat)
  | strV (s : String)
  deriving DecidableEq

/-- One outcome of a call to `mysql_stmt_fetch` inside the fetch loop of
`MysqlExecutor::FetchResults` (mysql_executor.h, lines 219-233):

* `ok cols` — status `0`: a row was fetched; the bound output buffers and the
  `null_flag_buffer` now hold, for each column `i`, the decoded value
  `(cols.get i).1` and the NULL flag `(cols.get i).2`.
  Modelled from the spec: `SetResultTuple` (declared in `mysql_binder.h`,
  which is not among the sources) decodes buffer `i` into column `i` of the
  row tuple, so we represent buffer contents directly at the value level.
* `truncated cols` — status `MYSQL_DATA_TRUNCATED`: a row was fetched but at
  least one column exceeded its bound buffer capacity.
* `fetchErr msg` — status `1`: a protocol error; `msg` is the text that
  `mysql_stmt_error` would report.
* `noData` — status `MYSQL_NO_DATA`: the end of the result set. -/
inductive FetchStep
  | ok (cols : List (MysqlValue × Bool))
  | truncated (cols : List (MysqlValue × Bool))
  | fetchErr (msg : String)
  | noData
  deriving DecidableEq

/-- Errors that the modelled pipeline can surface to the caller. -/
inductive MysqlError
  | usage (msg : String)
  | exec (msg : String)
  deriving DecidableEq

/-- `MysqlExecutor::FetchResults` (mysql_executor.h, lines 213-238), as a
function from the fetch stream and the accumulated `results` / `null_flags`
vectors to their final contents.

Faithful points of the source loop:
* status `1` or `MYSQL_NO_DATA` breaks the loop;
* status `MYSQL_DATA_TRUNCATED` hits an empty `To Do` branch: the fetched row
  is neither appended nor reported, and the loop continues;
* otherwise the row tuple is decoded from the output buffers
  (`SetResultTuple`) and pushed onto `results`, and a copy of the current
  `null_flag_buffer` is pushed onto `null_flags`;
* after the loop, when status was `1`, the source constructs
  `std::runtime_error(mysql_stmt_error(...))` as a discarded temporary with no
  `throw`, so the function returns normally on every path and surfaces no
  error.  That is why this embedding is total and has no error channel. -/
def FetchResults : List FetchStep → List (List MysqlValue) → List (List Bool) →
    List (List MysqlValue) × List (List Bool)
  | [], results, null_flags => (results, null_flags)
  | FetchStep.fetchErr _ :: _, results, null_flags => (results, null_flags)
  | FetchStep.noData :: _, results, null_flags => (results, null_flags)
  | FetchStep.truncated _ :: rest, results, null_flags => FetchResults rest results null_flags
  | FetchStep.ok cols :: rest, results, null_flags =>
      FetchResults rest (results ++ [cols.map Prod.fst]) (null_flags ++ [cols.map Prod.snd])

/-- Claim-side measure: the rows the protocol actually delivers before the
loop terminator, truncated rows included (`mysql_stmt_fetch` fetches a row
both on status `0` and on `MYSQL_DATA_TRUNCATED`). -/
def fetchedRows : List FetchStep → List (List (MysqlValue × Bool))
  | [] => []
  | FetchStep.fetchErr _ :: _ => []
  | FetchStep.noData :: _ => []
  | FetchStep.truncated cols :: rest => cols :: fetchedRows rest
  | FetchStep.ok cols :: rest => cols :: fetchedRows rest

/-- The rows fetched with status `0` (not truncated) before the loop
terminator: exactly the rows the source appends to the result collection. -/
def okRows : List FetchStep → List (List (MysqlValue × Bool))
  | [] => []
  | FetchStep.fetchErr _ :: _ => []
  | FetchStep.noData :: _ => []
  | FetchStep.truncated _ :: rest => okRows rest
  | FetchStep.ok cols :: rest => cols :: okRows rest

/-- What the protocol layer reports during one `QueryAll` call on a prepared
statement: the statement field count (`stmt.GetFieldCount()`), the return
value of `mysql_stmt_bind_param` (`0` means success), the outcome of the
protocol-level execute step, and the fetch stream. -/
structure StmtBehavior where
  fieldCount : Nat
  bindParamRet : Nat
  execOk : Bool
  execErr : String
  stream : List FetchStep
  deriving DecidableEq

/-- The observable outcome of one `QueryAll` call: the error surfaced to the
caller (if any) and the final contents of the caller-owned `results` and
`null_flags` vectors (which `QueryAll` mutates by reference). -/
structure QueryOutcome where
  err : Option MysqlError
  results : List (List MysqlValue)
  null_flags : List (List Bool)
  deriving DecidableEq

/-- Modelled from the spec: `BindOutputImpl` is declared in `mysql_binder.h`,
which is not among the sources here.  Spec section 4.3 step 1: obtain field
count `F` from the prepared statement and require `F` to equal the declared
output arity (the number of `OutputArgs`); a mismatch is a usage error. -/
def BindOutputs (arity fieldCount : Nat) : Except MysqlError Unit :=
  if fieldCount = arity then Except.ok ()
  else Except.error (MysqlError.usage "output arity does not match statement field count")

/-- `MysqlExecutor::QueryAll` on caller vectors (mysql_executor.h, lines
182-211).  `arity` is the number of `OutputArgs` of the instantiation;
`callerResults` / `callerNullFlags` are the contents of the caller vectors on
entry.  Faithful points:

* `results.clear(); null_flags.clear();` runs first, so the entry contents are
  discarded and never read — the body therefore ignores both parameters;
* `mysql_stmt_bind_param` is tested against `0` but the failure branch is the
  empty comment `// handle`, so `bindParamRet` does not influence anything;
* `BindOutputs<OutputArgs...>` is the spec-modelled arity check and runs
  before the protocol-level execute and before any fetch;
* `ExecuteStatement` is defined in `mysql_executor.cc`, which is not among
  the sources.  Modelled from the spec: an `ExecError` is fatal to the call
  and its message propagates to the caller (spec section 7);
* `FetchResults` then fills the vectors as embedded above. -/
def QueryAll (arity : Nat) (b : StmtBehavior)
    (callerResults : List (List MysqlValue)) (callerNullFlags : List (List Bool)) :
    QueryOutcome :=
  let _ := callerResults
  let _ := callerNullFlags
  match BindOutputs arity b.fieldCount with
  | Except.error e => { err := some e, results := [], null_flags := [] }
  | Except.ok _ =>
      if b.execOk then
        let fr := FetchResults b.stream [] []
        { err := none, results := fr.1, null_flags := fr.2 }
      else
        { err := some (MysqlError.exec b.execErr), results := [], null_flags := [] }

/-- What the protocol layer reports during one `Execute` call: the return
value of `mysql_stmt_bind_param`, the outcome of the execute step, and the
count that `mysql_affected_rows` reports (a 64-bit unsigned
`my_ulonglong`). -/
structure ExecBehavior where
  bindParamRet : Nat
  execOk : Bool
  execErr : String
  affectedRows : Nat
  deriving DecidableEq

/-- The C++ conversion of a `size_t` (64-bit unsigned) value to `int` (32-bit
signed two's complement), as performed by `return affected_row;` in
`MysqlExecutor::Execute` (line 255). -/
def cppIntOfSizeT (n : Nat) : Int :=
  let m := n % 4294967296
  if m < 2147483648 then (m : Int) else (m : Int) - 4294967296

/-- The C++ conversion of an `int` value to `size_t` (64-bit unsigned), as
performed by the assignment `mysql_results.affected_rows = Execute(...)`
(line 164). -/
def cppSizeTOfInt (i : Int) : Nat :=
  (i % 18446744073709551616).toNat

/-- `MysqlExecutor::Execute` returning `int` (mysql_executor.h, lines
241-256).  Faithful points:

* `mysql_stmt_bind_param` is tested against `0` but the failure branch is the
  empty comment `// handle`, so a bind failure is ignored and the call
  proceeds to the execute step;
* `ExecuteStatement` is defined in `mysql_executor.cc`, which is not among
  the sources.  Modelled from the spec: an `ExecError` is fatal to the call
  and its message propagates (spec section 7);
* `size_t affected_row = mysql_affected_rows(mysql_); return affected_row;`
  narrows the 64-bit unsigned count to the `int` return type. -/
def Execute (b : ExecBehavior) : Except MysqlError Int :=
  if b.execOk then Except.ok (cppIntOfSizeT b.affectedRows)
  else Except.error (MysqlError.exec b.execErr)

/-- The caller-visible fields of `MysqlResults<Args...>` (mysql_executor.h,
lines 32-52): the result set, the parallel null flags, an error-message slot,
and the affected-row count (`size_t`, initialised to `0`). -/
structure MysqlResults where
  result_set : List (List MysqlValue)
  null_flags : List (List Bool)
  error_message : String
  affected_rows : Nat
  deriving DecidableEq

/-- The `MysqlResults` overload of `QueryAll` (mysql_executor.h, lines
153-159): it forwards `mysql_results.result_set` and
`mysql_results.null_flags` to the vector overload and touches no other field.
The pair returned is the updated `MysqlResults` object and the error the call
surfaces (if any). -/
def QueryAllMysqlResults (arity : Nat) (b : StmtBehavior) (r : MysqlResults) :
    MysqlResults × Option MysqlError :=
  let out := QueryAll arity b r.result_set r.null_flags
  ({ r with result_set := out.results, null_flags := out.null_flags }, out.err)

/-- The `MysqlResults<OnlyExec>` overload of `Execute` (mysql_executor.h,
lines 161-165): `mysql_results.affected_rows = Execute(query, args...);`.
The `int` return value is converted back to `size_t` by the assignment.  When
the inner call fails, the exception propagates before the assignment and the
object is untouched. -/
def ExecuteMysqlResults (b : ExecBehavior) (r : MysqlResults) :
    MysqlResults × Option MysqlError :=
  match Execute b with
  | Except.error e => (r, some e)
  | Except.ok v => ({ r with affected_rows := cppSizeTOfInt v }, none)

/-- Type tags for template arguments of `MysqlResults<Args...>`: the marker
class `OnlyExec` (mysql_executor.h, lines 19-21) or any ordinary data type. -/
inductive CxxTypeTag
  | onlyExec
  | other (id : Nat)
  deriving DecidableEq

/-- Whether the fetch stream contains a `MYSQL_DATA_TRUNCATED` outcome. -/
def hasTruncated : List FetchStep → Bool
  | [] => false
  | FetchStep.truncated _ :: _ => true
  | FetchStep.ok _ :: rest => hasTruncated rest
  | FetchStep.fetchErr _ :: rest => hasTruncated rest
  | FetchStep.noData :: rest => hasTruncated rest

/-- A statement behavior whose result set is a single truncated row: the
protocol fetches one row (with truncation) and then reports end of data. -/
def truncatedRowBehavior : StmtBehavior :=
  { fieldCount := 1, bindParamRet := 0, execOk := true, execErr := "",
    stream := [FetchStep.truncated [(MysqlValue.strV "ab", false)], FetchStep.noData] }

/-- A statement behavior delivering two clean rows of two columns each. -/
def twoRowBehavior : StmtBehavior :=
  { fieldCount := 2, bindParamRet := 0, execOk := true, execErr := "",
    stream := [FetchStep.ok [(MysqlValue.intV 5, false), (MysqlValue.strV "x", false)],
               FetchStep.ok [(MysqlValue.intV 0, true), (MysqlValue.strV "", true)],
               FetchStep.noData] }

/-- A statement behavior whose field count is `2` (used against a declared
output arity of `1` to exercise the arity mismatch). -/
def mismatchBehavior : StmtBehavior :=
  { fieldCount := 2, bindParamRet := 0, execOk := true, execErr := "",
    stream := [FetchStep.ok [(MysqlValue.intV 5, false), (MysqlValue.strV "x", false)],
               FetchStep.noData] }

/-- A statement behavior for a query returning zero rows. -/
def zeroRowBehavior : StmtBehavior :=
  { fieldCount := 1, bindParamRet := 0, execOk := true, execErr := "",
    stream := [FetchStep.noData] }

/-- `MysqlResults<Args...>::is_only_exec` (mysql_executor.h, line 39):
`std::is_same_v<std::tuple<Args...>, std::tuple<OnlyExec>>`, i.e. the
argument list is exactly the one-element list `OnlyExec`. -/
def is_only_exec (args : List CxxTypeTag) : Bool :=
  decide (args = [CxxTypeTag.onlyExec])

/-- Whether the `static_assert(!MysqlResults<OutputArgs...>::is_only_exec, ...)`
guarding the `MysqlResults` overload of `QueryAll` (mysql_executor.h, lines
156-157) passes: instantiations for which it is `false` are rejected when the
template is compiled, before any run-time behavior exists. -/
def QueryAllAssertPasses (outs : List CxxTypeTag) : Bool :=
  !(is_only_exec outs)

/-- Whether a `MysqlResults<Args...>` object matches the parameter type
`MysqlResults<OnlyExec>&` of the `Execute` overload (mysql_executor.h, lines
87-89 and 161-165): the overload is declared for exactly that
instantiation. -/
def ExecuteOverloadAccepts (outs : List CxxTypeTag) : Bool :=
  decide (outs = [CxxTypeTag.onlyExec])

/-- Characterisation of the fetch loop: it appends, in order, one decoded row
and one null-flag copy for every status-`0` fetch before the terminator, and
nothing else. -/
theorem FetchResults_eq (stream : List FetchStep)
    (rs : List (List MysqlValue)) (ns : List (List Bool)) :
    FetchResults stream rs ns =
      (rs ++ (okRows stream).map (fun cols => cols.map Prod.fst),
       ns ++ (okRows stream).map (fun cols => cols.map Prod.snd)) := by
  induction stream generalizing rs ns with
  | nil => simp [FetchResults, okRows]
  | cons s rest ih =>
    cases s with
    | ok cols => simp [FetchResults, okRows, ih, List.append_assoc]
    | truncated cols => simp [FetchResults, okRows, ih]
    | fetchErr msg => simp [FetchResults, okRows]
    | noData => simp [FetchResults, okRows]

/-- On a stream with no truncation outcome, the appended rows are exactly the
fetched rows. -/
theorem okRows_eq_fetchedRows (stream : List FetchStep)
    (h : hasTruncated stream = false) : okRows stream = fetchedRows stream := by
  induction stream with
  | nil => rfl
  | cons s rest ih =>
    cases s with
    | ok cols =>
      simp only [okRows, fetchedRows]
      exact congrArg _ (ih (by simpa [hasTruncated] using h))
    | truncated cols => simp [hasTruncated] at h
    | fetchErr msg => rfl
    | noData => rfl

/-- C1 (counterexample): the claim as stated fails on the code.  On a query
whose execution yields one fetched row — delivered with the truncation status,
which still fetches a row — `QueryAll` appends nothing: the result collection
has `0` rows, not `1`, and no error is surfaced. -/
theorem QueryAll_truncated_row_breaks_count :
    (fetchedRows truncatedRowBehavior.stream).length = 1 ∧
    (QueryAll 1 truncatedRowBehavior [] []).results.length = 0 ∧
    (QueryAll 1 truncatedRowBehavior [] []).err = none := by
  refine ⟨rfl, rfl, rfl⟩

/-- C1 (amended): on a call whose statement field count equals the declared
output arity, whose execute step succeeds, and whose fetch stream contains no
truncation outcome and delivers rows of width equal to the arity, `QueryAll`
yields exactly one result row per fetched row, the result rows are the fetched
values in order, the flag sequences are the corresponding fetched NULL flags
in order (so `flag[i]` describes `value[i]`: row `k` and flag sequence `k` are
the two projections of the same fetched column list), and every flag sequence
has length equal to the declared output arity. -/
theorem QueryAll_row_count_and_flag_alignment (arity : Nat) (b : StmtBehavior)
    (r0 : List (List MysqlValue)) (n0 : List (List Bool))
    (hF : b.fieldCount = arity) (hx : b.execOk = true)
    (ht : hasTruncated b.stream = false)
    (hw : ∀ cols ∈ fetchedRows b.stream, cols.length = b.fieldCount) :
    (QueryAll arity b r0 n0).err = none ∧
    (QueryAll arity b r0 n0).results.length = (fetchedRows b.stream).length ∧
    (QueryAll arity b r0 n0).results =
      (fetchedRows b.stream).map (fun cols => cols.map Prod.fst) ∧
    (QueryAll arity b r0 n0).null_flags =
      (fetchedRows b.stream).map (fun cols => cols.map Prod.snd) ∧
    (QueryAll arity b r0 n0).null_flags.all (fun fl => fl.length == arity) = true := by
  have hok : okRows b.stream = fetchedRows b.stream := okRows_eq_fetchedRows _ ht
  have hq : QueryAll arity b r0 n0 =
      { err := none,
        results := (fetchedRows b.stream).map (fun cols => cols.map Prod.fst),
        null_flags := (fetchedRows b.stream).map (fun cols => cols.map Prod.snd) } := by
    simp [QueryAll, BindOutputs, hF, hx, FetchResults_eq, hok]
  refine ⟨by rw [hq], by rw [hq]; simp, by rw [hq], by rw [hq], ?_⟩
  rw [hq]
  simp only [List.all_eq_true, List.mem_map]
  rintro fl ⟨cols, hc, rfl⟩
  simp [hw cols hc, hF]

/-- C1 (witness): the amended theorem at a concrete two-column, two-row
fetch stream, with non-empty caller vectors on entry. -/
theorem QueryAll_row_count_and_flag_alignment_witness :
    (QueryAll 2 twoRowBehavior [[MysqlValue.intV 9]] [[true]]).err = none ∧
    (QueryAll 2 twoRowBehavior [[MysqlValue.intV 9]] [[true]]).results.length =
      (fetchedRows twoRowBehavior.stream).length ∧
    (QueryAll 2 twoRowBehavior [[MysqlValue.intV 9]] [[true]]).results =
      (fetchedRows twoRowBehavior.stream).map (fun cols => cols.map Prod.fst) ∧
    (QueryAll 2 twoRowBehavior [[MysqlValue.intV 9]] [[true]]).null_flags =
      (fetchedRows twoRowBehavior.stream).map (fun cols => cols.map Prod.snd) ∧
    (QueryAll 2 twoRowBehavior [[MysqlValue.intV 9]] [[true]]).null_flags.all
      (fun fl => fl.length == 2) = true :=
  QueryAll_row_count_and_flag_alignment 2 twoRowBehavior [[MysqlValue.intV 9]] [[true]]
    rfl rfl rfl (by decide)

/-- C2: when the declared output-type count differs from the statement field
count, `QueryAll` fails with a usage error, the caller collections are left
cleared and empty, and the outcome is identical to the outcome on a behavior
with an empty fetch stream and a failing execute step — i.e. neither the
execute step nor any fetch is consulted, so the call fails before any network
fetch and appends no row. -/
theorem QueryAll_arity_mismatch_fails_before_fetch (arity : Nat) (b : StmtBehavior)
    (r0 : List (List MysqlValue)) (n0 : List (List Bool))
    (h : b.fieldCount ≠ arity) :
    QueryAll arity b r0 n0 =
      { err := some (MysqlError.usage "output arity does not match statement field count"),
        results := [], null_flags := [] } ∧
    QueryAll arity b r0 n0 =
      QueryAll arity { b with execOk := false, stream := [] } r0 n0 := by
  constructor <;> simp [QueryAll, BindOutputs, h]

/-- C2 (witness): a declared arity of `1` against a statement with field
count `2` whose stream would deliver a row; the call fails with the usage
error and appends nothing. -/
theorem QueryAll_arity_mismatch_fails_before_fetch_witness :
    QueryAll 1 mismatchBehavior [[MysqlValue.intV 9]] [[true]] =
      { err := some (MysqlError.usage "output arity does not match statement field count"),
        results := [], null_flags := [] } ∧
    QueryAll 1 mismatchBehavior [[MysqlValue.intV 9]] [[true]] =
      QueryAll 1 { mismatchBehavior with execOk := false, stream := [] }
        [[MysqlValue.intV 9]] [[true]] :=
  QueryAll_arity_mismatch_fails_before_fetch 1 mismatchBehavior
    [[MysqlValue.intV 9]] [[true]] (by decide)

/-- C3: evaluation of the code at a failing input.  When the fetch primitive
reports the error status, the loop does stop, but the call does not raise:
`FetchResults` returns normally (the source builds
`std::runtime_error(mysql_stmt_error(...))` as a discarded temporary without
`throw`), and at the `QueryAll` level the surfaced error is `none` while the
partially collected rows are kept.  The protocol error text is lost. -/
theorem FetchResults_error_not_raised :
    FetchResults [FetchStep.fetchErr "Lost connection to MySQL server"] [] [] = ([], []) ∧
    QueryAll 1
      { fieldCount := 1, bindParamRet := 0, execOk := true, execErr := "",
        stream := [FetchStep.ok [(MysqlValue.intV 7, false)],
                   FetchStep.fetchErr "Lost connection to MySQL server"] } [] [] =
      { err := none, results := [[MysqlValue.intV 7]], null_flags := [[false]] } := by
  refine ⟨rfl, rfl⟩

/-- C4: evaluation of the code at a failing input.  When
`mysql_stmt_bind_param` reports failure (nonzero return), both `Execute` and
`QueryAll` ignore it — the branch is an empty `// handle` comment — and
proceed to the protocol-level execute step and beyond; no `BindError` is
surfaced.  Here the bind step fails (`bindParamRet = 1`) yet `Execute`
completes and returns the affected-row count, and `QueryAll` completes and
returns a fetched row. -/
theorem bind_param_failure_ignored :
    Execute { bindParamRet := 1, execOk := true, execErr := "", affectedRows := 5 } =
      Except.ok 5 ∧
    QueryAll 1
      { fieldCount := 1, bindParamRet := 1, execOk := true, execErr := "",
        stream := [FetchStep.ok [(MysqlValue.intV 7, false)], FetchStep.noData] } [] [] =
      { err := none, results := [[MysqlValue.intV 7]], null_flags := [[false]] } := by
  refine ⟨rfl, rfl⟩

/-- C5: evaluation of the code at a failing input.  On a truncation signal the
source neither re-fetches with an enlarged buffer nor fails the call: the
`MYSQL_DATA_TRUNCATED` branch is an empty `To Do`, the truncated row is
silently dropped, and the loop continues — three fetched rows yield a result
collection of two rows with no error surfaced, silently altering the row
count. -/
theorem truncation_silently_drops_row :
    QueryAll 1
      { fieldCount := 1, bindParamRet := 0, execOk := true, execErr := "",
        stream := [FetchStep.ok [(MysqlValue.intV 1, false)],
                   FetchStep.truncated [(MysqlValue.strV "ab", false)],
                   FetchStep.ok [(MysqlValue.intV 3, false)],
                   FetchStep.noData] } [] [] =
      { err := none, results := [[MysqlValue.intV 1], [MysqlValue.intV 3]],
        null_flags := [[false], [false]] } ∧
    (fetchedRows [FetchStep.ok [(MysqlValue.intV 1, false)],
                  FetchStep.truncated [(MysqlValue.strV "ab", false)],
                  FetchStep.ok [(MysqlValue.intV 3, false)],
                  FetchStep.noData]).length = 3 := by
  refine ⟨rfl, rfl⟩

/-- C6: `QueryAll` clears the caller collections at the start of the call —
the outcome is the same whatever the collections held on entry — and a query
returning zero rows yields empty (not absent) collections with no error; the
whole collection is the value of the pure fetch-loop function, fully
materialized before return. -/
theorem QueryAll_clears_and_zero_rows_empty (arity : Nat) (b : StmtBehavior)
    (r0 : List (List MysqlValue)) (n0 : List (List Bool))
    (hF : b.fieldCount = arity) (hx : b.execOk = true)
    (hs : b.stream = [FetchStep.noData]) :
    QueryAll arity b r0 n0 = QueryAll arity b [] [] ∧
    QueryAll arity b r0 n0 = { err := none, results := [], null_flags := [] } := by
  refine ⟨rfl, ?_⟩
  simp [QueryAll, BindOutputs, hF, hx, hs, FetchResults]

/-- C6 (witness): a zero-row query with non-empty caller collections on
entry. -/
theorem QueryAll_clears_and_zero_rows_empty_witness :
    QueryAll 1 zeroRowBehavior [[MysqlValue.intV 9]] [[true]] =
      QueryAll 1 zeroRowBehavior [] [] ∧
    QueryAll 1 zeroRowBehavior [[MysqlValue.intV 9]] [[true]] =
      { err := none, results := [], null_flags := [] } :=
  QueryAll_clears_and_zero_rows_empty 1 zeroRowBehavior
    [[MysqlValue.intV 9]] [[true]] rfl rfl rfl

/-- C7 (counterexample): the claim as stated fails on the code.  `Execute`
returns `int`, but `mysql_affected_rows` reports a 64-bit unsigned count that
`return affected_row;` narrows to 32-bit signed.  For a reported count of
`2147483648` (2^31) the value returned to the caller is `-2147483648`:
negative, so the count is not faithfully representable without sign change or
wraparound. -/
theorem Execute_large_count_wraps_negative :
    Execute { bindParamRet := 0, execOk := true, execErr := "",
              affectedRows := 2147483648 } = Except.ok (-2147483648) ∧
    (-2147483648 : Int) < 0 := by
  refine ⟨rfl, by decide⟩

/-- C7 (amended): when the execute step succeeds and the protocol reports an
affected-row count below `2^31`, `Execute` returns exactly that count, and
the returned value is non-negative; counts of `2^31` or more wrap through the
32-bit signed `int` return type. -/
theorem Execute_returns_affected_count_below_2pow31 (b : ExecBehavior)
    (hx : b.execOk = true) (hr : b.affectedRows < 2147483648) :
    Execute b = Except.ok (b.affectedRows : Int) ∧
    (0 : Int) ≤ (b.affectedRows : Int) := by
  have h1 : b.affectedRows % 4294967296 = b.affectedRows :=
    Nat.mod_eq_of_lt (by omega)
  refine ⟨?_, Int.ofNat_nonneg _⟩
  simp [Execute, cppIntOfSizeT, hx, h1, hr]

/-- C7 (witness): the amended theorem at a reported count of `5`. -/
theorem Execute_returns_affected_count_below_2pow31_witness :
    Execute { bindParamRet := 0, execOk := true, execErr := "", affectedRows := 5 } =
      Except.ok ((5 : Nat) : Int) ∧
    (0 : Int) ≤ ((5 : Nat) : Int) :=
  Execute_returns_affected_count_below_2pow31
    { bindParamRet := 0, execOk := true, execErr := "", affectedRows := 5 }
    rfl (by decide)

/-- C8: the exec-only marker is enforced at the type level.  `is_only_exec`
holds exactly for the instantiation `MysqlResults<OnlyExec>`; the
`static_assert` guarding the `MysqlResults` overload of `QueryAll` fails on
that instantiation (a compile-time rejection — the assertion is evaluated
when the template is instantiated, before any run-time behavior exists); the
`Execute` overload is declared for exactly `MysqlResults<OnlyExec>`; and for
every instantiation the assertion fails precisely when the `Execute` overload
accepts it, so the exec-only marker is usable only with `Execute`. -/
theorem onlyExec_marker_type_level :
    is_only_exec [CxxTypeTag.onlyExec] = true ∧
    QueryAllAssertPasses [CxxTypeTag.onlyExec] = false ∧
    ExecuteOverloadAccepts [CxxTypeTag.onlyExec] = true ∧
    ∀ outs : List CxxTypeTag,
      (QueryAllAssertPasses outs = false ↔ ExecuteOverloadAccepts outs = true) := by
  refine ⟨rfl, rfl, rfl, fun outs => ?_⟩
  simp [QueryAllAssertPasses, ExecuteOverloadAccepts, is_only_exec]

/-- C10: frame effect of the `MysqlResults` overloads.  The `QueryAll`
overload writes only `result_set` and `null_flags`, leaving `error_message`
and `affected_rows` unchanged; the `Execute` overload writes only
`affected_rows`, leaving `error_message`, `result_set` and `null_flags`
unchanged — on both the success and the error path. -/
theorem MysqlResults_overloads_frame (arity : Nat) (b : StmtBehavior)
    (be : ExecBehavior) (r : MysqlResults) :
    (QueryAllMysqlResults arity b r).1.error_message = r.error_message ∧
    (QueryAllMysqlResults arity b r).1.affected_rows = r.affected_rows ∧
    (ExecuteMysqlResults be r).1.error_message = r.error_message ∧
    (ExecuteMysqlResults be r).1.result_set = r.result_set ∧
    (ExecuteMysqlResults be r).1.null_flags = r.null_flags := by
  cases hE : Execute be with
  | error e => simp [QueryAllMysqlResults, ExecuteMysqlResults, hE]
  | ok v => simp [QueryAllMysqlResults, ExecuteMysqlResults, hE]

end TrpcMysql
